import Mathlib

/-!
Shallow embedding of the catapult dispatcher-service wiring
(sync/DispatcherService.cpp), the server entry point
(server/ServerMain.cpp) and the write-once hook registry primitives
(extensions/BasicServerHooks, whose header is known only through its tests
and the specification). Stateful code is embedded by explicit state
passing; the ordering of side effects is recorded in explicit event
traces; exceptions are modelled by flags or Except values.
-/

namespace Catapult

/-! ## RollbackInfo counter state -/

/-- Modelled from the spec: the counter state of RollbackInfo (the
RollbackInfo implementation file is not among the sources under study;
only its call sites in DispatcherService.cpp are). The field pending is
the in-flight counter; committedAll is the all-time committed counter. -/
structure RollbackInfo where
  pending : Nat
  committedAll : Nat
  deriving DecidableEq, Repr

/-- Modelled from the spec: "A pending in-flight counter is incremented
on each UndoBlock invocation." -/
def RollbackInfo.increment (r : RollbackInfo) : RollbackInfo :=
  { r with pending := r.pending + 1 }

/-- Modelled from the spec: "On reset(), the pending count is
discarded." -/
def RollbackInfo.reset (r : RollbackInfo) : RollbackInfo :=
  { r with pending := 0 }

/-- Modelled from the spec: "On save(), the pending count is folded into
Committed." -/
def RollbackInfo.save (r : RollbackInfo) : RollbackInfo :=
  { pending := 0, committedAll := r.committedAll + r.pending }

/-! ## BlockChainSyncHandlers (DispatcherService.cpp lines 104-156) -/

/-- Observable actions of the StateChange handler, in invocation order. -/
inductive StateChangeEvent
  | notifyScoreChange (score : Nat)
  | notifyStateChange (scoreDelta : Nat)
  | rollbackSave
  deriving DecidableEq, Repr

/-- The StateChange handler built by CreateBlockChainSyncHandlers
(DispatcherService.cpp lines 143-152): add the score delta to the local
score, notify the subscriber of the new score, then of the state change,
then fold the pending rollback count via RollbackInfo.save. Returns the
new local score, the new rollback state and the ordered event trace. -/
def StateChange (localScore : Nat) (rollbackInfo : RollbackInfo) (scoreDelta : Nat) :
    Nat × RollbackInfo × List StateChangeEvent :=
  let newScore := localScore + scoreDelta
  (newScore,
   rollbackInfo.save,
   [StateChangeEvent.notifyScoreChange newScore,
    StateChangeEvent.notifyStateChange scoreDelta,
    StateChangeEvent.rollbackSave])

/-- The DifficultyChecker handler built by CreateBlockChainSyncHandlers
(DispatcherService.cpp lines 130-134). chain::CheckDifficulties lives
outside the sources under study; its result, the number of blocks whose
difficulty matches, is taken as a parameter. The handler resets the
rollback pending state and returns whether every block matched. -/
def DifficultyChecker {β : Type} (checkDifficultiesResult : Nat) (blocks : List β)
    (rollbackInfo : RollbackInfo) : Bool × RollbackInfo :=
  let result := checkDifficultiesResult
  (blocks.length == result, rollbackInfo.reset)

/-- Observable actions of the UndoBlock handler, in invocation order. -/
inductive UndoEvent
  | incrementPending
  | rollbackBlock (height : Nat)
  deriving DecidableEq, Repr

/-- CreateSyncUndoBlockHandler (DispatcherService.cpp lines 104-110): runs
chain::RollbackBlock over the block element with the undo entity
observer, recorded here as a rollbackBlock event at the block height. -/
def CreateSyncUndoBlockHandler (blockHeight : Nat) : List UndoEvent :=
  [UndoEvent.rollbackBlock blockHeight]

/-- The UndoBlock handler built by CreateBlockChainSyncHandlers
(DispatcherService.cpp lines 136-140): increments the rollback pending
counter, then delegates to the sync undo block handler. -/
def UndoBlock (rollbackInfo : RollbackInfo) (blockHeight : Nat) :
    RollbackInfo × List UndoEvent :=
  (rollbackInfo.increment,
   UndoEvent.incrementPending :: CreateSyncUndoBlockHandler blockHeight)

/-! ## NewTransactions consumer (DispatcherService.cpp lines 263-272) -/

/-- Observable actions of the NewTransactions consumer body. -/
inductive TransactionEvent (τ : Type)
  | newTransactionsSink (transactionInfos : List τ)
  | utUpdaterUpdate (transactionInfos : List τ)
  deriving DecidableEq, Repr

/-- The NewTransactions consumer body built by
TransactionDispatcherBuilder::build (DispatcherService.cpp lines
263-272): forwards the transaction infos to the new-transactions sink,
then hands the same infos to UtUpdater.update. -/
def NewTransactionsConsumer {τ : Type} (transactionInfos : List τ) :
    List (TransactionEvent τ) :=
  [TransactionEvent.newTransactionsSink transactionInfos,
   TransactionEvent.utUpdaterUpdate transactionInfos]

/-! ## Configuration records (config surface used by DispatcherService.cpp) -/

/-- The user-configuration fields read by the code under study. -/
structure UserConfiguration where
  DataDirectory : String
  deriving DecidableEq, Repr

/-- The node-configuration fields read by the block dispatcher wiring. -/
structure NodeConfiguration where
  ShouldAuditDispatcherInputs : Bool
  ShouldPrecomputeTransactionAddresses : Bool
  ShortLivedCacheBlockDuration : Nat
  MaxBlocksPerSyncAttempt : Nat
  deriving DecidableEq, Repr

/-- The blockchain-configuration fields read by the block dispatcher wiring. -/
structure BlockChainConfiguration where
  MaxBlockFutureTime : Nat
  MaxRollbackBlocks : Nat
  deriving DecidableEq, Repr

/-- The local node configuration: node, user and blockchain parts. -/
structure LocalNodeConfiguration where
  Node : NodeConfiguration
  User : UserConfiguration
  BlockChain : BlockChainConfiguration
  deriving DecidableEq, Repr

/-! ## CreateConsumerDispatcher (DispatcherService.cpp lines 75-98) -/

/-- The audit directory path built in CreateConsumerDispatcher
(DispatcherService.cpp lines 89-90): DataDirectory / audit /
dispatcherName / unwrapped value of the time supplier, rendered with the
generic path separator. -/
def auditDirectory (dataDirectory dispatcherName : String) (timeSupplied : Nat) : String :=
  dataDirectory ++ "/audit/" ++ dispatcherName ++ "/" ++ toString timeSupplied

/-- CreateConsumerDispatcher (DispatcherService.cpp lines 75-98): when
ShouldAuditDispatcherInputs is enabled, builds the audit path from the
data directory, the dispatcher name and the sampled time, creates that
directory and inserts an audit consumer at the front of the consumer
list; otherwise the list is unchanged. Returns the final consumer list
and the list of directories created. -/
def CreateConsumerDispatcher {α : Type} (auditConsumer : String → α)
    (config : LocalNodeConfiguration) (dispatcherName : String) (timeSupplied : Nat)
    (disruptorConsumers : List α) : List α × List String :=
  if config.Node.ShouldAuditDispatcherInputs then
    let auditPath := auditDirectory config.User.DataDirectory dispatcherName timeSupplied
    (auditConsumer auditPath :: disruptorConsumers, [auditPath])
  else
    (disruptorConsumers, [])

/-! ## Block dispatcher assembly (DispatcherService.cpp lines 158-208, 364-392) -/

/-- Tags for the consumers pushed into the block dispatcher, carrying the
configuration values each consumer is constructed with. -/
inductive BlockConsumer
  | audit (auditPath : String)
  | blockHashCalculator
  | blockHashCheck (shortLivedCacheBlockDuration : Nat)
  | blockAddressExtraction
  | blockChainCheck (maxBlocksPerSyncAttempt : Nat) (maxBlockFutureTime : Nat)
  | blockStatelessValidation
  | blockChainSync (maxRollbackBlocks : Nat)
  | newBlockAnnounce
  deriving DecidableEq, Repr

/-- BlockDispatcherBuilder::addHashConsumers (DispatcherService.cpp lines
166-171): appends the block hash calculator and the block hash check with
duration ShortLivedCacheBlockDuration. -/
def addHashConsumers (nodeConfig : NodeConfiguration) (consumers : List BlockConsumer) :
    List BlockConsumer :=
  consumers ++
    [BlockConsumer.blockHashCalculator,
     BlockConsumer.blockHashCheck nodeConfig.ShortLivedCacheBlockDuration]

/-- BlockDispatcherBuilder::addPrecomputedTransactionAddressConsumer
(DispatcherService.cpp lines 173-175): appends the block address
extraction consumer. -/
def addPrecomputedTransactionAddressConsumer (consumers : List BlockConsumer) :
    List BlockConsumer :=
  consumers ++ [BlockConsumer.blockAddressExtraction]

/-- BlockDispatcherBuilder::build (DispatcherService.cpp lines 177-202):
appends the block chain check, the parallel stateless validation, then
the block chain sync and the new block consumer, and hands the list to
CreateConsumerDispatcher under the block dispatcher options. -/
def buildBlockDispatcher (config : LocalNodeConfiguration) (timeSupplied : Nat)
    (consumers : List BlockConsumer) : List BlockConsumer × List String :=
  let consumers := consumers ++
    [BlockConsumer.blockChainCheck config.Node.MaxBlocksPerSyncAttempt
      config.BlockChain.MaxBlockFutureTime]
  let consumers := consumers ++ [BlockConsumer.blockStatelessValidation]
  let disruptorConsumers := consumers
  let disruptorConsumers := disruptorConsumers ++
    [BlockConsumer.blockChainSync config.BlockChain.MaxRollbackBlocks]
  let disruptorConsumers := disruptorConsumers ++ [BlockConsumer.newBlockAnnounce]
  CreateConsumerDispatcher BlockConsumer.audit config "block dispatcher" timeSupplied
    disruptorConsumers

/-- The block consumer chain assembled by
DispatcherServiceRegistrar::registerServices (DispatcherService.cpp lines
373-388): hash consumers first, then the optional precomputed-address
consumer, then BlockDispatcherBuilder::build. -/
def registerBlockDispatcherConsumers (config : LocalNodeConfiguration)
    (timeSupplied : Nat) : List BlockConsumer :=
  let consumers := addHashConsumers config.Node []
  let consumers := if config.Node.ShouldPrecomputeTransactionAddresses
    then addPrecomputedTransactionAddressConsumer consumers
    else consumers
  (buildBlockDispatcher config timeSupplied consumers).1

/-! ## Rollback service (DispatcherService.cpp lines 326-335) -/

/-- CreateAndRegisterRollbackService (DispatcherService.cpp lines
326-335): the recent-events window of the single RollbackInfo instance,
in whole milliseconds: the full rollback duration divided by two.
CalculateFullRollbackDuration lives outside the sources under study; its
result in milliseconds is taken as a parameter. -/
def rollbackServiceWindowMillis (rollbackDurationFullMillis : Nat) : Nat :=
  rollbackDurationFullMillis / 2

/-- Modelled from the spec: the Recent counter query of RollbackInfo (the
RollbackInfo implementation file is not among the sources under study):
the family keeps a ring of (timestamp, delta) records and, on query, all
events older than the window from the current time are excluded and the
remaining deltas are summed. -/
def recentCounter (windowMillis now : Nat) : List (Nat × Nat) → Nat
  | [] => 0
  | record :: rest =>
    (if now ≤ record.1 + windowMillis then record.2 else 0)
      + recentCounter windowMillis now rest

/-! ## ServerMain (ServerMain.cpp lines 70-107) -/

/-- Which steps of ServerMain throw, and whether the instance lock can be
acquired. Each flag stands for the corresponding call raising an
exception at its call site. -/
structure ServerMainEnv where
  configLoadThrows : Bool
  validateConfigurationThrows : Bool
  setupLoggingThrows : Bool
  lockAcquired : Bool
  runThrows : Bool
  deriving DecidableEq, Repr

/-- The steps of ServerMain, in the order they run. -/
inductive ServerMainEvent
  | loadConfiguration
  | validateConfiguration
  | setupLogging
  | tryAcquireLock (lockFilePath : String)
  | runLocalNode
  deriving DecidableEq, Repr

/-- ServerMain (ServerMain.cpp lines 74-107). The outer try covers
configuration loading, validation, logging setup and lock acquisition and
maps any exception to exit code -1; a lock that cannot be acquired
returns -3 without running the node; the inner try maps an exception
while running the node to -2; otherwise the exit code is 0. Returns the
exit code and the ordered trace of the steps that ran. -/
def ServerMain (env : ServerMainEnv) (dataDirectory : String) :
    Int × List ServerMainEvent :=
  if env.configLoadThrows then
    (-1, [ServerMainEvent.loadConfiguration])
  else if env.validateConfigurationThrows then
    (-1, [ServerMainEvent.loadConfiguration, ServerMainEvent.validateConfiguration])
  else if env.setupLoggingThrows then
    (-1, [ServerMainEvent.loadConfiguration, ServerMainEvent.validateConfiguration,
          ServerMainEvent.setupLogging])
  else
    let lockFilePath := dataDirectory ++ "/file.lock"
    if !env.lockAcquired then
      (-3, [ServerMainEvent.loadConfiguration, ServerMainEvent.validateConfiguration,
            ServerMainEvent.setupLogging, ServerMainEvent.tryAcquireLock lockFilePath])
    else if env.runThrows then
      (-2, [ServerMainEvent.loadConfiguration, ServerMainEvent.validateConfiguration,
            ServerMainEvent.setupLogging, ServerMainEvent.tryAcquireLock lockFilePath,
            ServerMainEvent.runLocalNode])
    else
      (0, [ServerMainEvent.loadConfiguration, ServerMainEvent.validateConfiguration,
           ServerMainEvent.setupLogging, ServerMainEvent.tryAcquireLock lockFilePath,
           ServerMainEvent.runLocalNode])

/-! ## GetResourcesPath (ServerMain.cpp lines 70-72) -/

/-- Joining of two path components with the generic separator, as boost
path concatenation renders it. -/
def pathJoin (a b : String) : String := a ++ "/" ++ b

/-- GetResourcesPath (ServerMain.cpp lines 70-72): the element of argv at
index 1 when argc is greater than 1, otherwise the parent directory,
joined with the resources component. argv is modelled as a list of
strings; the C invariant that argv has at least argc entries makes the
index-1 access of the source well defined. -/
def GetResourcesPath (argc : Nat) (argv : List String) : String :=
  pathJoin (if argc > 1 then argv.getD 1 "" else "..") "resources"

/-! ## Write-once hook registry primitives (BasicServerHooks) -/

/-- Modelled from the spec: SetOnce of the write-once hook registry
(the BasicServerHooks header is not among the sources under study; the
behavior is fixed by BasicServerHooksTests and the write-once registry
description). An unset callback is none. The result is the new value of
dest together with a flag that is true exactly when the call throws
catapult_invalid_argument; on a throw dest keeps its previous value. -/
def SetOnce {α : Type} (dest source : Option α) : Option α × Bool :=
  match dest with
  | some v => (some v, true)
  | none => (source, false)

/-- Modelled from the spec: Require of the write-once hook registry:
returns the callback when it is set and throws catapult_invalid_argument
when it is unset. -/
def Require {α : Type} (func : Option α) : Except String α :=
  match func with
  | some f => Except.ok f
  | none => Except.error "invalid argument: func is not set"

/-! ## Theorems -/

/-- C1: the StateChange handler adds the score delta D to the local
score, so the score after minus the score before is exactly D; the
subscriber receives exactly one score-change notification carrying the
already-updated local score, followed by exactly one state-change
notification; and the pending rollback count is folded into the committed
counter by RollbackInfo.save afterwards. -/
theorem stateChange_updates_score_then_notifies_in_order
    (localScore : Nat) (r : RollbackInfo) (d : Nat) :
    (StateChange localScore r d).1 - localScore = d
    ∧ (StateChange localScore r d).1 = localScore + d
    ∧ (StateChange localScore r d).2.2 =
        [StateChangeEvent.notifyScoreChange (localScore + d),
         StateChangeEvent.notifyStateChange d,
         StateChangeEvent.rollbackSave]
    ∧ (StateChange localScore r d).2.1 =
        { pending := 0, committedAll := r.committedAll + r.pending } := by
  refine ⟨?_, rfl, rfl, rfl⟩
  simp [StateChange]

/-- C2: the DifficultyChecker handler returns true if and only if the
number of blocks reported as matching by chain::CheckDifficulties equals
the total number of incoming blocks, and it resets the rollback pending
state (to zero) on every invocation, in particular whenever it detects a
mismatch and returns false. -/
theorem difficultyChecker_matches_iff_all_and_resets_pending
    {β : Type} (checkDifficultiesResult : Nat) (blocks : List β) (r : RollbackInfo) :
    ((DifficultyChecker checkDifficultiesResult blocks r).1 = true
        ↔ blocks.length = checkDifficultiesResult)
    ∧ (DifficultyChecker checkDifficultiesResult blocks r).2.pending = 0
    ∧ (DifficultyChecker checkDifficultiesResult blocks r).2.committedAll
        = r.committedAll := by
  refine ⟨?_, rfl, rfl⟩
  simp [DifficultyChecker]

/-- C3: the UndoBlock handler increments the rollback pending counter by
exactly one, leaves the committed counter unchanged, and the increment
happens before chain::RollbackBlock runs the undo entity observer over
the block element. -/
theorem undoBlock_increments_pending_once_before_rollback
    (r : RollbackInfo) (blockHeight : Nat) :
    (UndoBlock r blockHeight).1.pending = r.pending + 1
    ∧ (UndoBlock r blockHeight).1.committedAll = r.committedAll
    ∧ (UndoBlock r blockHeight).2 =
        [UndoEvent.incrementPending, UndoEvent.rollbackBlock blockHeight] :=
  ⟨rfl, rfl, rfl⟩

/-- C4: the NewTransactions consumer invokes the new-transactions sink
with the batch of transaction infos and invokes UtUpdater.update with the
same infos, and the sink invocation occurs before the UT-pool update. -/
theorem newTransactions_sink_then_utUpdater {τ : Type} (transactionInfos : List τ) :
    NewTransactionsConsumer transactionInfos =
      [TransactionEvent.newTransactionsSink transactionInfos,
       TransactionEvent.utUpdaterUpdate transactionInfos] := rfl

/-- C5: the block dispatcher consumer chain is, in this exact order: hash
calculator, hash check with ShortLivedCacheBlockDuration, address
extraction exactly when ShouldPrecomputeTransactionAddresses is enabled,
chain check with MaxBlocksPerSyncAttempt and MaxBlockFutureTime, parallel
stateless validation, block-chain sync with MaxRollbackBlocks, and
new-block announce; with an audit consumer prepended before all of these
exactly when auditing is enabled. -/
theorem blockDispatcher_consumer_chain_order
    (config : LocalNodeConfiguration) (timeSupplied : Nat) :
    registerBlockDispatcherConsumers config timeSupplied =
      (if config.Node.ShouldAuditDispatcherInputs
        then [BlockConsumer.audit
          (auditDirectory config.User.DataDirectory "block dispatcher" timeSupplied)]
        else [])
      ++ [BlockConsumer.blockHashCalculator,
          BlockConsumer.blockHashCheck config.Node.ShortLivedCacheBlockDuration]
      ++ (if config.Node.ShouldPrecomputeTransactionAddresses
          then [BlockConsumer.blockAddressExtraction] else [])
      ++ [BlockConsumer.blockChainCheck config.Node.MaxBlocksPerSyncAttempt
            config.BlockChain.MaxBlockFutureTime,
          BlockConsumer.blockStatelessValidation,
          BlockConsumer.blockChainSync config.BlockChain.MaxRollbackBlocks,
          BlockConsumer.newBlockAnnounce] := by
  rcases config with ⟨⟨a, p, sl, mb⟩, ⟨dd⟩, ⟨mf, mr⟩⟩
  cases a <;> cases p <;>
    simp [registerBlockDispatcherConsumers, buildBlockDispatcher, addHashConsumers,
      addPrecomputedTransactionAddressConsumer, CreateConsumerDispatcher]

/-- C6: when ShouldAuditDispatcherInputs is enabled,
CreateConsumerDispatcher inserts an audit consumer at the front of the
consumer chain whose target directory is DataDirectory/audit/
dispatcherName/unwrapped sampled time, and that directory is created at
dispatcher construction; when the flag is disabled, no audit consumer is
added and no directory is created. -/
theorem createConsumerDispatcher_audit_front_or_absent
    {α : Type} (auditConsumer : String → α) (p : Bool) (sl mb : Nat)
    (dataDirectory dispatcherName : String) (bc : BlockChainConfiguration)
    (timeSupplied : Nat) (consumers : List α) :
    CreateConsumerDispatcher auditConsumer
        ⟨⟨true, p, sl, mb⟩, ⟨dataDirectory⟩, bc⟩ dispatcherName timeSupplied consumers
      = (auditConsumer
            (dataDirectory ++ "/audit/" ++ dispatcherName ++ "/" ++ toString timeSupplied)
          :: consumers,
         [dataDirectory ++ "/audit/" ++ dispatcherName ++ "/" ++ toString timeSupplied])
    ∧ CreateConsumerDispatcher auditConsumer
        ⟨⟨false, p, sl, mb⟩, ⟨dataDirectory⟩, bc⟩ dispatcherName timeSupplied consumers
      = (consumers, []) := by
  constructor <;> simp [CreateConsumerDispatcher, auditDirectory]

/-- C7: the RollbackInfo instance registered by
CreateAndRegisterRollbackService is constructed with a recent-events
window equal to the full rollback duration in milliseconds divided by two
with integer division, and a Recent-family query under that window
excludes every event older than the half-rollback-duration window: a
record whose timestamp lies more than the window before the current time
contributes nothing to the counter. -/
theorem rollbackService_half_window_excludes_old_events
    (rollbackDurationFullMillis now timestamp delta : Nat)
    (records : List (Nat × Nat))
    (h : timestamp + rollbackDurationFullMillis / 2 < now) :
    rollbackServiceWindowMillis rollbackDurationFullMillis
        = rollbackDurationFullMillis / 2
    ∧ recentCounter (rollbackServiceWindowMillis rollbackDurationFullMillis) now
          ((timestamp, delta) :: records)
        = recentCounter (rollbackServiceWindowMillis rollbackDurationFullMillis) now
          records := by
  refine ⟨rfl, ?_⟩
  simp [recentCounter, rollbackServiceWindowMillis, Nat.not_le.mpr h]

/-- Witness for C7 at a concrete input: full duration 10 ms gives a 5 ms
window, and an event at time 0 queried at time 100 is excluded. -/
theorem rollbackService_half_window_excludes_old_events_witness :
    (0 + 10 / 2 < 100)
    ∧ recentCounter (rollbackServiceWindowMillis 10) 100 ((0, 3) :: [(99, 7)])
        = recentCounter (rollbackServiceWindowMillis 10) 100 [(99, 7)] :=
  ⟨by decide,
   (rollbackService_half_window_excludes_old_events 10 100 0 3 [(99, 7)] (by decide)).2⟩

/-- C8: ServerMain returns -1 when configuration loading or validation
throws, -3 when the instance lock in DataDirectory/file.lock cannot be
acquired, in which case the node is never run, -2 when running the local
node throws after the lock is held, and 0 when the run completes
normally; and in every execution, either the trace starts with
configuration loading followed by validation, or neither logging setup
nor lock acquisition ever ran. -/
theorem serverMain_exit_codes_and_step_order
    (v s k r : Bool) (dataDirectory : String) (env : ServerMainEnv) :
    (ServerMain ⟨true, v, s, k, r⟩ dataDirectory).1 = -1
    ∧ (ServerMain ⟨false, true, s, k, r⟩ dataDirectory).1 = -1
    ∧ (ServerMain ⟨false, false, false, false, r⟩ dataDirectory).1 = -3
    ∧ ServerMainEvent.runLocalNode ∉
        (ServerMain ⟨false, false, false, false, r⟩ dataDirectory).2
    ∧ ServerMainEvent.tryAcquireLock (dataDirectory ++ "/file.lock") ∈
        (ServerMain ⟨false, false, false, false, r⟩ dataDirectory).2
    ∧ (ServerMain ⟨false, false, false, true, true⟩ dataDirectory).1 = -2
    ∧ (ServerMain ⟨false, false, false, true, false⟩ dataDirectory).1 = 0
    ∧ ((ServerMain env dataDirectory).2.take 2
          = [ServerMainEvent.loadConfiguration, ServerMainEvent.validateConfiguration]
        ∨ (ServerMainEvent.setupLogging ∉ (ServerMain env dataDirectory).2
            ∧ ∀ q, ServerMainEvent.tryAcquireLock q ∉ (ServerMain env dataDirectory).2)) := by
  refine ⟨by simp [ServerMain], by simp [ServerMain], by simp [ServerMain],
    by simp [ServerMain], by simp [ServerMain], by simp [ServerMain],
    by simp [ServerMain], ?_⟩
  rcases env with ⟨c, cv, cs, ck, cr⟩
  cases c
  · left
    cases cv <;> cases cs <;> cases ck <;> cases cr <;> simp [ServerMain]
  · right
    simp [ServerMain]

/-- C9: the hook registry primitives enforce write-once semantics:
SetOnce assigns source to dest when dest is unset; when dest is already
set, SetOnce throws an invalid-argument error and dest keeps its previous
value unchanged; Require returns the function when it is set and throws
an invalid-argument error when it is unset. -/
theorem setOnce_require_write_once_semantics
    {α : Type} (v : α) (source : Option α) :
    SetOnce (none : Option α) source = (source, false)
    ∧ SetOnce (some v) source = (some v, true)
    ∧ Require (some v) = Except.ok v
    ∧ Require (none : Option α) = Except.error "invalid argument: func is not set" :=
  ⟨rfl, rfl, rfl, rfl⟩

/-- C10: GetResourcesPath is total; it returns the element of argv at
index 1 joined with the resources component when argc is greater than 1,
and the parent directory joined with the resources component when argc is
at most 1, so a node started with no command-line arguments reads its
resources from the parent resources directory. -/
theorem getResourcesPath_argv_or_parent (argc : Nat) (argv : List String) :
    (1 < argc → GetResourcesPath argc argv = pathJoin (argv.getD 1 "") "resources")
    ∧ (argc ≤ 1 → GetResourcesPath argc argv = pathJoin ".." "resources") := by
  constructor
  · intro h
    simp [GetResourcesPath, h]
  · intro h
    simp [GetResourcesPath, Nat.not_lt.mpr h]

/-- Witness for C10 at concrete inputs: with two arguments the resources
are read next to the given path, and with one argument from the parent
directory. -/
theorem getResourcesPath_argv_or_parent_witness :
    GetResourcesPath 2 ["server", "/sub"] = "/sub/resources"
    ∧ GetResourcesPath 1 ["server"] = "../resources" := by
  constructor
  · have h := (getResourcesPath_argv_or_parent 2 ["server", "/sub"]).1 (by decide)
    rw [h]
    rfl
  · have h := (getResourcesPath_argv_or_parent 1 ["server"]).2 (by decide)
    rw [h]
    rfl

end Catapult
